import Mathlib

/-!
Shallow embedding of the HTTP retrieval pipeline of `src/app.js`
(dicomweb-pacs): the WADO-RS frame-retrieval handler
(`GET /viewer/rs/.../instances/:sopInstanceUid/frames/:frame`), the legacy
WADO-URI handler (`GET /viewer/wadouri`), the storage-path resolution, and
the metadata endpoints' tag-set composition.

External collaborators (the `dicom-parser` library, the filesystem, the
`utils` module's `fileExists`/`compressFile`, and the random token source)
are modelled as oracle fields of an `Env` record; the handler logic itself
is translated line by line from `app.js`.
-/

namespace DicomwebPacs

/-- A single quote character, used in the Content-Type header string. -/
def sq : String := (Char.ofNat 39).toString

/-- The line terminator used by the multipart assembler (`const term = '\r\n'`
in `app.js`). -/
def crlf : String := (Char.ofNat 13).toString ++ (Char.ofNat 10).toString

/-- Node's `path.join` for two segments (no `..`/`.` normalisation is needed
for opaque UID segments). `path.join('', '')` is `"."`, joining with an empty
side returns the other side, otherwise the segments are joined with `/`. -/
def pathJoin (a b : String) : String :=
  if a = "" then (if b = "" then "." else b)
  else if b = "" then a
  else a ++ "/" ++ b

/-- Storage location resolution as performed by both retrieval handlers:
`path.join(path.join(storagePath, studyUid), objectUid)` (`app.js` lines
128-130 and 199-201). -/
def locate (root studyUid objectUid : String) : String :=
  pathJoin (pathJoin root studyUid) objectUid

/-- One chunk pushed to the HTTP response body: either a JS template string
or a raw byte buffer. -/
inductive Chunk where
  | str : String → Chunk
  | raw : List Nat → Chunk
deriving DecidableEq, Repr

/-- Render a body chunk as characters (raw bytes as their code points), to
state substring/suffix facts about the assembled body. -/
def Chunk.toText : Chunk → String
  | Chunk.str s => s
  | Chunk.raw bs => String.mk (bs.map Char.ofNat)

/-- The full body text of a response: its chunks concatenated in push order. -/
def bodyText (body : List Chunk) : String :=
  String.join (body.map Chunk.toText)

/-- An HTTP response as the handlers build it: status code (200 when
`reply.code` is never called), the `Content-Type` header if one was set, and
the body chunks in the order they are sent. -/
structure HttpResponse where
  status : Nat
  contentType : Option String
  body : List Chunk
deriving DecidableEq, Repr

/-- Observable side effects of a handler, in execution order: the
`utils.fileExists` check, the `utils.compressFile` transcode step (with its
containing directory and optional target transfer-syntax UID argument), and
the filesystem read. -/
inductive Effect where
  | fsExists : String → Effect
  | compress : String → String → Option String → Effect
  | readFile : String → Effect
deriving DecidableEq, Repr

/-- The pixel-data element `x7fe00010` as exposed by `dicom-parser`:
its data offset and declared length within the parsed byte array. -/
structure PixelDataElement where
  dataOffset : Nat
  length : Nat
deriving DecidableEq, Repr

/-- The result of `dicomParser.parseDicom`: the pixel-data element if
present, and the object's declared frame count (tag NumberOfFrames,
x00280008) — which the handler never reads. -/
structure DicomDataset where
  pixelData : Option PixelDataElement
  numberOfFrames : Nat
deriving DecidableEq, Repr

/-- The handler's environment: configuration, filesystem, external library
calls and the random token source, all as oracles.

`fileContents p` is `some bytes` exactly when a regular file exists at `p`
(so `utils.fileExists` — modelled from the spec's Storage Locator `exists`
contract, its code being outside `src/` — throws `NotFound` iff it is
`none`); `parseDicom` is the external `dicom-parser` library;
`compressOk p ts` tells whether `utils.compressFile(p, dir, ts)` resolves
(modelled from the spec's Transcode Guard contract); `boundary` and
`contentId` are the two `crypto.randomBytes(16).toString('hex')` draws of a
request, held as inputs so that responses are deterministic functions. -/
structure Env where
  storagePath : String
  fileContents : String → Option (List Nat)
  parseDicom : List Nat → Except String DicomDataset
  compressOk : String → Option String → Bool
  boundary : String
  contentId : String

/-- The `Content-Type` header value set by the frame handler (`app.js` line
164): note the code writes `application/octed-stream` (sic) in single
quotes, with no spaces after the semicolons. -/
def contentTypeHeader (contentId boundary : String) : String :=
  "multipart/related;start=" ++ contentId ++ ";type=" ++ sq
    ++ "application/octed-stream" ++ sq ++ ";boundary=" ++ sq ++ boundary ++ sq

/-- The body chunks pushed by the frame handler's `Readable` (`app.js` lines
166-177), in push order. -/
def wrapBody (boundary contentId : String) (buffer : List Nat) : List Chunk :=
  [ Chunk.str (crlf ++ "--" ++ boundary ++ crlf),
    Chunk.str ("Content-Location:localhost" ++ crlf),
    Chunk.str ("Content-ID:" ++ contentId ++ crlf),
    Chunk.str ("Content-Type:application/octet-stream" ++ crlf),
    Chunk.str crlf,
    Chunk.raw buffer,
    Chunk.str (crlf ++ "--" ++ boundary ++ "--" ++ crlf) ]

/-- The target transfer syntax the frame handler requests (`app.js` line
143). -/
def frameTargetTs : String := "1.2.840.10008.1.2"

/-- The frame-retrieval handler
(`GET /viewer/rs/studies/:studyInstanceUid/series/:seriesInstanceUid/instances/:sopInstanceUid/frames/:frame`,
`app.js` lines 125-184), returning the response and the effect trace.
The handler destructures only `studyInstanceUid` and `sopInstanceUid` from
`req.params`; `seriesInstanceUid` and `frame` are bound here as parameters
to mirror the route, and the body shows they are never consulted.
`Buffer.from(byteArray.buffer, off, len)` throws `RangeError` (caught by the
surrounding `try`, yielding a 500) when `off + len` exceeds the buffer;
accessing `.dataOffset` of an absent `x7fe00010` element throws `TypeError`,
likewise caught. -/
def frameHandler (env : Env)
    (studyInstanceUid seriesInstanceUid sopInstanceUid frame : String) :
    HttpResponse × List Effect :=
  let studyPath := pathJoin env.storagePath studyInstanceUid
  let pathname := pathJoin studyPath sopInstanceUid
  match env.fileContents pathname with
  | none =>
      (⟨404, none, [Chunk.str ("File " ++ pathname ++ " not found!")]⟩,
       [Effect.fsExists pathname])
  | some data =>
      if env.compressOk pathname (some frameTargetTs) = false then
        (⟨500, none, [Chunk.str ("failed to compress " ++ pathname)]⟩,
         [Effect.fsExists pathname,
          Effect.compress pathname studyPath (some frameTargetTs)])
      else
        let effs := [Effect.fsExists pathname,
                     Effect.compress pathname studyPath (some frameTargetTs),
                     Effect.readFile pathname]
        match env.parseDicom data with
        | Except.error e =>
            (⟨500, none, [Chunk.str ("Error getting the file: " ++ e ++ ".")]⟩,
             effs)
        | Except.ok dataset =>
            match dataset.pixelData with
            | none =>
                (⟨500, none,
                  [Chunk.str "Error getting the file: TypeError."]⟩, effs)
            | some el =>
                if el.dataOffset + el.length ≤ data.length then
                  (⟨200,
                    some (contentTypeHeader env.contentId env.boundary),
                    wrapBody env.boundary env.contentId
                      ((data.drop el.dataOffset).take el.length)⟩,
                   effs)
                else
                  (⟨500, none,
                    [Chunk.str "Error getting the file: RangeError."]⟩, effs)

/-- JS truthiness test for a query-string parameter: `!x` is true when the
parameter is absent (`undefined`) or the empty string. -/
def falsy : Option String → Bool
  | none => true
  | some s => s = ""

/-- The legacy WADO-URI handler (`GET /viewer/wadouri`, `app.js` lines
188-236), returning the response and the effect trace. Parameter validation
(`if (!studyUid || !seriesUid || !imageUid)`) happens before any path is
resolved; a missing file is answered with status 500 and body
`file not found {pathname}`. -/
def wadouriHandler (env : Env)
    (studyUID seriesUID objectUID : Option String) :
    HttpResponse × List Effect :=
  if falsy studyUID || falsy seriesUID || falsy objectUID then
    (⟨500, none, [Chunk.str "Error missing parameters."]⟩, [])
  else
    let studyUid := studyUID.getD ""
    let imageUid := objectUID.getD ""
    let studyPath := pathJoin env.storagePath studyUid
    let pathname := pathJoin studyPath imageUid
    match env.fileContents pathname with
    | none =>
        (⟨500, none, [Chunk.str ("file not found " ++ pathname)]⟩,
         [Effect.fsExists pathname])
    | some data =>
        if env.compressOk pathname none = false then
          (⟨500, none, [Chunk.str ("failed to compress " ++ pathname)]⟩,
           [Effect.fsExists pathname, Effect.compress pathname studyPath none])
        else
          (⟨200, some "application/dicom+json", [Chunk.raw data]⟩,
           [Effect.fsExists pathname, Effect.compress pathname studyPath none,
            Effect.readFile pathname])

/-- The query level passed to `utils.doFind`. -/
inductive Level where
  | STUDY | SERIES | IMAGE
deriving DecidableEq, Repr

/-- One invocation of the query executor `utils.doFind(level, query, tags)`:
the level and the tag list the handler passes. -/
structure FindCall where
  level : Level
  queryTags : List String
deriving DecidableEq, Repr

/-- The four tag projections supplied by `utils` (`studyLevelTags`,
`seriesLevelTags`, `imageLevelTags`, `imageMetadataTags`); their contents
live outside `src/`, so they are held abstract. -/
structure TagCatalog where
  studyTags : List String
  seriesTags : List String
  imageTags : List String
  imageMetaTags : List String

/-- The `doFind` call issued by
`GET /viewer/rs/studies/:studyInstanceUid/metadata` (`app.js` lines 73-81):
level SERIES with `[...stTags, ...serTags]`. -/
def studyMetadataFind (cat : TagCatalog) : FindCall :=
  ⟨Level.SERIES, cat.studyTags ++ cat.seriesTags⟩

/-- The `doFind` call issued by
`GET /viewer/rs/studies/.../series/:seriesInstanceUid/metadata` (`app.js`
lines 110-121): level IMAGE with `[...stTags, ...serTags, ...imTags]` where
`imTags = utils.imageMetadataTags()`. -/
def seriesMetadataFind (cat : TagCatalog) : FindCall :=
  ⟨Level.IMAGE, cat.studyTags ++ cat.seriesTags ++ cat.imageMetaTags⟩

/-- Whether `needle` occurs as a contiguous run inside `hay`. -/
def hasSubstring (needle hay : List Char) : Bool :=
  match hay with
  | [] => needle.isEmpty
  | c :: t => needle.isPrefixOf (c :: t) || hasSubstring needle t

/-- A concrete sample stored object: six bytes, with the pixel-data payload
`[10, 11, 12]` at offset 2. -/
def sampleData : List Nat := [0, 1, 10, 11, 12, 9]

/-- The parse result of `sampleData`: a single-frame object
(`numberOfFrames = 1`) whose pixel-data element sits at offset 2 with
declared length 3. -/
def sampleSet : DicomDataset := ⟨some ⟨2, 3⟩, 1⟩

/-- A concrete environment: storage root `root`, exactly one stored object
at `root/st/ob` (study UID `st`, SOP instance UID `ob`), transcoding always
succeeds, and the two random tokens drawn are `bnd` and `cid`. -/
def sampleEnv : Env where
  storagePath := "root"
  fileContents := fun p => if p = "root/st/ob" then some sampleData else none
  parseDicom := fun d =>
    if d = sampleData then Except.ok sampleSet else Except.error "parse"
  compressOk := fun _ _ => true
  boundary := "bnd"
  contentId := "cid"

/-- C10: the `frame` path parameter has no influence on the frame endpoint's
output — two requests differing only in the frame index (random tokens held
equal via the same `Env`) produce identical responses, and the extracted
bytes are always the whole pixel-data payload (`dataOffset`..`+length`)
regardless of the requested frame index. -/
theorem frame_param_no_influence (env : Env)
    (st ser sop f1 f2 : String) (data : List Nat) (dataset : DicomDataset)
    (el : PixelDataElement)
    (hfile : env.fileContents (locate env.storagePath st sop) = some data)
    (hcomp : env.compressOk (locate env.storagePath st sop)
        (some frameTargetTs) = true)
    (hparse : env.parseDicom data = Except.ok dataset)
    (hel : dataset.pixelData = some el)
    (hlen : el.dataOffset + el.length ≤ data.length) :
    frameHandler env st ser sop f1 = frameHandler env st ser sop f2 ∧
    (frameHandler env st ser sop f1).1.status = 200 ∧
    (frameHandler env st ser sop f1).1.body =
      wrapBody env.boundary env.contentId
        ((data.drop el.dataOffset).take el.length) := by
  simp only [locate] at hfile hcomp
  refine ⟨rfl, ?_, ?_⟩ <;>
    simp [frameHandler, hfile, hcomp, hparse, hel, hlen]

/-- Witness for `frame_param_no_influence` at the sample environment. -/
theorem frame_param_no_influence_witness :
    frameHandler sampleEnv "st" "ser" "ob" "1" =
      frameHandler sampleEnv "st" "ser" "ob" "99" ∧
    (frameHandler sampleEnv "st" "ser" "ob" "1").1.status = 200 ∧
    (frameHandler sampleEnv "st" "ser" "ob" "1").1.body =
      wrapBody "bnd" "cid" [10, 11, 12] := by
  have h := frame_param_no_influence sampleEnv "st" "ser" "ob" "1" "99"
    sampleData sampleSet ⟨2, 3⟩ (by decide) (by decide) (by rfl)
    (by rfl) (by decide)
  exact ⟨h.1, h.2.1, h.2.2⟩

/-- C1: the frame handler never reads the `:frame` route parameter, so the
frame index is not bounds-checked against the declared frame count:
requesting frame `5` of a single-frame object (declared `numberOfFrames =
1`) succeeds with status 200 and the whole pixel-data payload instead of
failing with `FrameOutOfRange` (HTTP 500) as the spec requires. -/
theorem frame_index_never_bounds_checked :
    sampleSet.numberOfFrames = 1 ∧
    (frameHandler sampleEnv "st" "ser" "ob" "5").1.status = 200 ∧
    (frameHandler sampleEnv "st" "ser" "ob" "5").1.status ≠ 500 ∧
    (frameHandler sampleEnv "st" "ser" "ob" "5").1.body =
      wrapBody "bnd" "cid" [10, 11, 12] := by
  refine ⟨rfl, ?_, ?_, ?_⟩ <;> decide

/-- C2: the `Content-Type` header of a successful frame response is
`multipart/related;start=<cid>;type='application/octed-stream';boundary='<b>'`
— the type token is the misspelled `application/octed-stream` and the
semicolons carry no spaces, so the header never contains the string
`application/octet-stream` claimed by the spec (while the body part header
does spell it correctly). -/
theorem content_type_header_misspelled :
    (frameHandler sampleEnv "st" "ser" "ob" "1").1.contentType =
      some (contentTypeHeader "cid" "bnd") ∧
    contentTypeHeader "cid" "bnd" =
      "multipart/related;start=cid;type=" ++ sq ++ "application/octed-stream"
        ++ sq ++ ";boundary=" ++ sq ++ "bnd" ++ sq ∧
    hasSubstring "application/octet-stream".data
      (contentTypeHeader "cid" "bnd").data = false ∧
    (Chunk.str ("Content-Type:application/octet-stream" ++ crlf)) ∈
      (frameHandler sampleEnv "st" "ser" "ob" "1").1.body := by
  refine ⟨?_, rfl, ?_, ?_⟩ <;> decide

/-- C3 counterexample: on the legacy wadouri endpoint an absent stored
object is answered with status 500 (body `file not found {path}`), not 404 —
`NotFound` is not mapped to 404 on every retrieval endpoint. -/
theorem wadouri_notfound_is_500 :
    sampleEnv.fileContents "root/st/nope" = none ∧
    (wadouriHandler sampleEnv (some "st") (some "ser") (some "nope")).1.status
      = 500 ∧
    (wadouriHandler sampleEnv (some "st") (some "ser") (some "nope")).1.status
      ≠ 404 ∧
    (wadouriHandler sampleEnv (some "st") (some "ser") (some "nope")).1.body =
      [Chunk.str "file not found root/st/nope"] := by
  refine ⟨?_, ?_, ?_, ?_⟩ <;> decide

/-- C3 amended: when the stored object's path is absent, the frame endpoint
answers 404 with a plain-text body, while the legacy wadouri endpoint
answers 500 with plain-text body `file not found {path}` — the absent-path
failure maps to 404 only on the frame endpoint. -/
theorem notfound_status_by_endpoint (env : Env)
    (st ser sop f su se ob : String)
    (hframe : env.fileContents (locate env.storagePath st sop) = none)
    (hsu : su ≠ "") (hse : se ≠ "") (hob : ob ≠ "")
    (hwad : env.fileContents (locate env.storagePath su ob) = none) :
    (frameHandler env st ser sop f).1.status = 404 ∧
    (frameHandler env st ser sop f).1.body =
      [Chunk.str ("File " ++ locate env.storagePath st sop ++ " not found!")]
      ∧
    (wadouriHandler env (some su) (some se) (some ob)).1.status = 500 ∧
    (wadouriHandler env (some su) (some se) (some ob)).1.body =
      [Chunk.str ("file not found " ++ locate env.storagePath su ob)] := by
  have hsu2 : falsy (some su) = false := by simp [falsy, hsu]
  have hse2 : falsy (some se) = false := by simp [falsy, hse]
  have hob2 : falsy (some ob) = false := by simp [falsy, hob]
  simp only [locate] at hframe hwad ⊢
  refine ⟨?_, ?_, ?_, ?_⟩ <;>
    simp [frameHandler, wadouriHandler, hframe, hwad, hsu2, hse2, hob2]

/-- Witness for `notfound_status_by_endpoint` at the sample environment. -/
theorem notfound_status_by_endpoint_witness :
    (frameHandler sampleEnv "st" "ser" "nope" "1").1.status = 404 ∧
    (wadouriHandler sampleEnv (some "st") (some "ser") (some "nope")).1.status
      = 500 := by
  have h := notfound_status_by_endpoint sampleEnv "st" "ser" "nope" "1"
    "st" "ser" "nope" (by decide) (by decide) (by decide) (by decide)
    (by decide)
  exact ⟨h.1, h.2.2.1⟩

/-- C6: when the resolved path does not exist, the frame endpoint answers
404 with body exactly `File {path} not found!`, and the handler returns
before the transcode step or the file read — its effect trace is the
existence check alone. -/
theorem frame_notfound_short_circuits (env : Env) (st ser sop f : String)
    (h : env.fileContents (locate env.storagePath st sop) = none) :
    frameHandler env st ser sop f =
      (⟨404, none,
        [Chunk.str ("File " ++ locate env.storagePath st sop
          ++ " not found!")]⟩,
       [Effect.fsExists (locate env.storagePath st sop)]) := by
  simp only [locate] at h ⊢
  simp [frameHandler, h]

/-- Witness for `frame_notfound_short_circuits` at the sample environment. -/
theorem frame_notfound_short_circuits_witness :
    frameHandler sampleEnv "st" "ser" "nope" "1" =
      (⟨404, none, [Chunk.str "File root/st/nope not found!"]⟩,
       [Effect.fsExists "root/st/nope"]) := by
  have h := frame_notfound_short_circuits sampleEnv "st" "ser" "nope" "1"
    (by decide)
  exact h.trans (by decide)

/-- C7: if any of the three wadouri query parameters is missing, the
response is 500 with body exactly `Error missing parameters.`, and the
handler performs no storage resolution and no filesystem access (empty
effect trace). -/
theorem wadouri_missing_param (env : Env) (su se ob : Option String)
    (h : su = none ∨ se = none ∨ ob = none) :
    wadouriHandler env su se ob =
      (⟨500, none, [Chunk.str "Error missing parameters."]⟩, []) := by
  rcases h with h | h | h <;> subst h <;> simp [wadouriHandler, falsy]

/-- Witness for `wadouri_missing_param`: `objectUID` absent. -/
theorem wadouri_missing_param_witness :
    wadouriHandler sampleEnv (some "st") (some "ser") none =
      (⟨500, none, [Chunk.str "Error missing parameters."]⟩, []) :=
  wadouri_missing_param sampleEnv (some "st") (some "ser") none
    (Or.inr (Or.inr rfl))

/-- C4: a successful frame response's body is exactly one part — opening
boundary delimiter line, `Content-Location`, `Content-ID` and
`Content-Type: application/octet-stream` headers, a blank line, the raw
frame bytes, and the closing delimiter `--boundary--` followed by the line
terminator — and the boundary and content-ID tokens embedded in the body are
the very tokens of the response's `Content-Type` header (`env.boundary`,
`env.contentId` on both sides). -/
theorem multipart_body_structure (env : Env) (st ser sop f : String)
    (data : List Nat) (dataset : DicomDataset) (el : PixelDataElement)
    (hfile : env.fileContents (locate env.storagePath st sop) = some data)
    (hcomp : env.compressOk (locate env.storagePath st sop)
        (some frameTargetTs) = true)
    (hparse : env.parseDicom data = Except.ok dataset)
    (hel : dataset.pixelData = some el)
    (hlen : el.dataOffset + el.length ≤ data.length) :
    (frameHandler env st ser sop f).1.contentType =
      some (contentTypeHeader env.contentId env.boundary) ∧
    (frameHandler env st ser sop f).1.body =
      [ Chunk.str (crlf ++ "--" ++ env.boundary ++ crlf),
        Chunk.str ("Content-Location:localhost" ++ crlf),
        Chunk.str ("Content-ID:" ++ env.contentId ++ crlf),
        Chunk.str ("Content-Type:application/octet-stream" ++ crlf),
        Chunk.str crlf,
        Chunk.raw ((data.drop el.dataOffset).take el.length),
        Chunk.str (crlf ++ "--" ++ env.boundary ++ "--" ++ crlf) ] ∧
    (∃ pre : String, bodyText (frameHandler env st ser sop f).1.body =
      pre ++ ("--" ++ env.boundary ++ "--" ++ crlf)) := by
  simp only [locate] at hfile hcomp
  have hb : (frameHandler env st ser sop f).1.body =
      wrapBody env.boundary env.contentId
        ((data.drop el.dataOffset).take el.length) := by
    simp [frameHandler, hfile, hcomp, hparse, hel, hlen]
  have hc : (frameHandler env st ser sop f).1.contentType =
      some (contentTypeHeader env.contentId env.boundary) := by
    simp [frameHandler, hfile, hcomp, hparse, hel, hlen]
  refine ⟨hc, by rw [hb]; rfl, ?_⟩
  rw [hb]
  refine ⟨(crlf ++ "--" ++ env.boundary ++ crlf)
    ++ ("Content-Location:localhost" ++ crlf)
    ++ ("Content-ID:" ++ env.contentId ++ crlf)
    ++ ("Content-Type:application/octet-stream" ++ crlf)
    ++ crlf
    ++ String.mk (((data.drop el.dataOffset).take el.length).map Char.ofNat)
    ++ crlf, ?_⟩
  apply String.ext
  simp [bodyText, wrapBody, Chunk.toText, String.data_join,
    String.data_append, List.append_assoc]

/-- Witness for `multipart_body_structure` at the sample environment. -/
theorem multipart_body_structure_witness :
    (frameHandler sampleEnv "st" "ser" "ob" "1").1.contentType =
      some (contentTypeHeader "cid" "bnd") ∧
    (frameHandler sampleEnv "st" "ser" "ob" "1").1.body =
      [ Chunk.str (crlf ++ "--" ++ "bnd" ++ crlf),
        Chunk.str ("Content-Location:localhost" ++ crlf),
        Chunk.str ("Content-ID:" ++ "cid" ++ crlf),
        Chunk.str ("Content-Type:application/octet-stream" ++ crlf),
        Chunk.str crlf,
        Chunk.raw [10, 11, 12],
        Chunk.str (crlf ++ "--" ++ "bnd" ++ "--" ++ crlf) ] ∧
    (∃ pre : String, bodyText (frameHandler sampleEnv "st" "ser" "ob" "1").1.body
      = pre ++ ("--" ++ "bnd" ++ "--" ++ crlf)) :=
  multipart_body_structure sampleEnv "st" "ser" "ob" "1" sampleData sampleSet
    ⟨2, 3⟩ (by decide) (by decide) (by rfl) (by rfl) (by decide)

/-- C5: requesting frame 1 of an existing single-frame object succeeds with
status 200; the body carries the entire pixel-data payload (the bytes of
element x7fe00010 from its `dataOffset` for its declared `length`); the
`Content-Type` header starts with `multipart/related`; and the body contains
the literal marker `Content-Type:application/octet-stream`. -/
theorem single_frame_request_succeeds (env : Env) (st ser sop : String)
    (data : List Nat) (dataset : DicomDataset) (el : PixelDataElement)
    (hsingle : dataset.numberOfFrames = 1)
    (hfile : env.fileContents (locate env.storagePath st sop) = some data)
    (hcomp : env.compressOk (locate env.storagePath st sop)
        (some frameTargetTs) = true)
    (hparse : env.parseDicom data = Except.ok dataset)
    (hel : dataset.pixelData = some el)
    (hlen : el.dataOffset + el.length ≤ data.length) :
    (frameHandler env st ser sop "1").1.status = 200 ∧
    Chunk.raw ((data.drop el.dataOffset).take el.length) ∈
      (frameHandler env st ser sop "1").1.body ∧
    (∃ rest : String, (frameHandler env st ser sop "1").1.contentType =
      some ("multipart/related" ++ rest)) ∧
    (∃ p q : String, bodyText (frameHandler env st ser sop "1").1.body =
      p ++ "Content-Type:application/octet-stream" ++ q) := by
  simp only [locate] at hfile hcomp
  have hb : (frameHandler env st ser sop "1").1.body =
      wrapBody env.boundary env.contentId
        ((data.drop el.dataOffset).take el.length) := by
    simp [frameHandler, hfile, hcomp, hparse, hel, hlen]
  have hc : (frameHandler env st ser sop "1").1.contentType =
      some (contentTypeHeader env.contentId env.boundary) := by
    simp [frameHandler, hfile, hcomp, hparse, hel, hlen]
  refine ⟨?_, ?_, ?_, ?_⟩
  · simp [frameHandler, hfile, hcomp, hparse, hel, hlen]
  · rw [hb]; simp [wrapBody]
  · refine ⟨";start=" ++ env.contentId ++ ";type=" ++ sq
      ++ "application/octed-stream" ++ sq ++ ";boundary=" ++ sq
      ++ env.boundary ++ sq, ?_⟩
    rw [hc]
    congr 1
  · refine ⟨(crlf ++ "--" ++ env.boundary ++ crlf)
      ++ ("Content-Location:localhost" ++ crlf)
      ++ ("Content-ID:" ++ env.contentId ++ crlf),
      crlf ++ crlf
      ++ String.mk (((data.drop el.dataOffset).take el.length).map Char.ofNat)
      ++ (crlf ++ "--" ++ env.boundary ++ "--" ++ crlf), ?_⟩
    rw [hb]
    apply String.ext
    simp [bodyText, wrapBody, Chunk.toText, String.data_join,
      String.data_append, List.append_assoc]

/-- Witness for `single_frame_request_succeeds` at the sample environment. -/
theorem single_frame_request_succeeds_witness :
    (frameHandler sampleEnv "st" "ser" "ob" "1").1.status = 200 ∧
    Chunk.raw [10, 11, 12] ∈ (frameHandler sampleEnv "st" "ser" "ob" "1").1.body ∧
    (∃ rest : String, (frameHandler sampleEnv "st" "ser" "ob" "1").1.contentType
      = some ("multipart/related" ++ rest)) ∧
    (∃ p q : String, bodyText (frameHandler sampleEnv "st" "ser" "ob" "1").1.body
      = p ++ "Content-Type:application/octet-stream" ++ q) :=
  single_frame_request_succeeds sampleEnv "st" "ser" "ob" sampleData sampleSet
    ⟨2, 3⟩ (by rfl) (by decide) (by decide) (by rfl) (by rfl) (by decide)

/-- C8: storage location resolution is a pure deterministic function of the
storage root, the StudyInstanceUID and the SOPInstanceUID: the resolved path
is `root/StudyInstanceUID/SOPInstanceUID`, identical inputs resolve to
identical paths, and the SeriesInstanceUID influences neither the frame
handler's nor (its presence granted) the wadouri handler's behaviour. -/
theorem locate_deterministic (root st ob : String)
    (h1 : root ≠ "") (h2 : st ≠ "") (h3 : ob ≠ "") :
    locate root st ob = root ++ "/" ++ st ++ "/" ++ ob ∧
    (∀ r2 s2 o2 : String, r2 = root → s2 = st → o2 = ob →
      locate r2 s2 o2 = locate root st ob) ∧
    (∀ (env : Env) (ser1 ser2 f : String),
      frameHandler env st ser1 ob f = frameHandler env st ser2 ob f) ∧
    (∀ (env : Env) (se1 se2 : Option String),
      falsy se1 = false → falsy se2 = false →
      wadouriHandler env (some st) se1 (some ob) =
        wadouriHandler env (some st) se2 (some ob)) := by
  have hne : root ++ "/" ++ st ≠ "" := by
    intro hc
    have h0 := congrArg String.length hc
    rw [String.length_append, String.length_append] at h0
    have hs : ("/" : String).length = 1 := rfl
    rw [hs, String.length_empty] at h0
    omega
  refine ⟨?_, ?_, ?_, ?_⟩
  · have e1 : pathJoin root st = root ++ "/" ++ st := by
      simp only [pathJoin]
      rw [if_neg h1, if_neg h2]
    have e2 : pathJoin (root ++ "/" ++ st) ob =
        root ++ "/" ++ st ++ "/" ++ ob := by
      simp only [pathJoin]
      rw [if_neg hne, if_neg h3]
    simp only [locate]
    rw [e1, e2]
  · intro r2 s2 o2 hr hs ho
    rw [hr, hs, ho]
  · intro env ser1 ser2 f
    rfl
  · intro env se1 se2 hs1 hs2
    have hst : falsy (some st) = false := by simp [falsy, h2]
    have hob : falsy (some ob) = false := by simp [falsy, h3]
    simp [wadouriHandler, hst, hob, hs1, hs2]

/-- Witness for `locate_deterministic` at concrete UIDs. -/
theorem locate_deterministic_witness :
    locate "root" "st" "ob" = "root" ++ "/" ++ "st" ++ "/" ++ "ob" ∧
    frameHandler sampleEnv "st" "serA" "ob" "1" =
      frameHandler sampleEnv "st" "serB" "ob" "1" := by
  have h := locate_deterministic "root" "st" "ob" (by decide) (by decide)
    (by decide)
  exact ⟨h.1, h.2.2.1 sampleEnv "serA" "serB" "1"⟩

/-- C9: the study-metadata endpoint queries at SERIES level with the
study-level tags followed by the series-level tags, and the series-metadata
endpoint queries at IMAGE level with study-level, then series-level, then
image-metadata tags; the composition order is preserved in the tag list
passed to the query executor (each segment reappears, in order, at its
position). -/
theorem metadata_tag_composition (cat : TagCatalog) :
    (studyMetadataFind cat).level = Level.SERIES ∧
    (studyMetadataFind cat).queryTags = cat.studyTags ++ cat.seriesTags ∧
    (seriesMetadataFind cat).level = Level.IMAGE ∧
    (seriesMetadataFind cat).queryTags =
      cat.studyTags ++ cat.seriesTags ++ cat.imageMetaTags ∧
    (studyMetadataFind cat).queryTags.take cat.studyTags.length =
      cat.studyTags ∧
    (studyMetadataFind cat).queryTags.drop cat.studyTags.length =
      cat.seriesTags ∧
    (seriesMetadataFind cat).queryTags.take
        (cat.studyTags.length + cat.seriesTags.length) =
      cat.studyTags ++ cat.seriesTags ∧
    (seriesMetadataFind cat).queryTags.drop
        (cat.studyTags.length + cat.seriesTags.length) =
      cat.imageMetaTags := by
  refine ⟨rfl, rfl, rfl, rfl, ?_, ?_, ?_, ?_⟩
  · exact List.take_left cat.studyTags cat.seriesTags
  · exact List.drop_left cat.studyTags cat.seriesTags
  · have h := List.take_left (cat.studyTags ++ cat.seriesTags)
      cat.imageMetaTags
    rwa [List.length_append] at h
  · have h := List.drop_left (cat.studyTags ++ cat.seriesTags)
      cat.imageMetaTags
    rwa [List.length_append] at h

end DicomwebPacs
